import Mathlib

/-!
Shallow embedding of the chunked-recording / upload-queue core of the
`bg-camera` repository:

* `src/src/services/UploadService.ts` — durable upload queue with retry,
  exponential backoff, single-flight de-duplication, persistence.
* `src/unnamed/part_000` (StorageService) — local file store with
  quota-based oldest-first eviction and age-based deletion.
* `src/src/services/CameraService.ts` — chunk finalization
  (move / verify / enqueue).

External collaborators (settings store, network-state oracle, file system,
upload transport) are modelled as explicit parameters; asynchronous methods
become pure functions of those parameters and of the service state.
-/

namespace BgCamera

/-- `UploadQueueItem.status` values from `UploadService.ts`. -/
inductive Status
  | pending
  | uploading
  | completed
  | failed
deriving DecidableEq, Repr

/-- The `metadata` field of `UploadQueueItem` (chunk index, duration,
recording timestamp). -/
structure ItemMetadata where
  chunkIndex : Nat
  duration : Int
  timestamp : Int
deriving DecidableEq, Repr

/-- `UploadQueueItem` from `UploadService.ts`: a durable record of one
chunk's upload lifecycle.  `progress` and `error` are the optional fields. -/
structure UploadQueueItem where
  id : String
  fileName : String
  filePath : String
  fileSize : Nat
  createdAt : Int
  status : Status
  progress : Option Nat := none
  error : Option String := none
  retryCount : Nat
  metadata : ItemMetadata
deriving DecidableEq, Repr

/-- The settings the queue and storage services read
(`SettingsService.getSettings()`). -/
structure Settings where
  wifiOnlyUpload : Bool
  deleteAfterUpload : Bool
  maxRetryAttempts : Nat
  maxLocalStorageGB : Nat
  autoDeleteOldFiles : Bool
deriving DecidableEq, Repr

/-- `RETRY_DELAY_BASE = 5000` ms in `UploadService.ts`. -/
def RETRY_DELAY_BASE : Nat := 5000

/-- `MAX_CONCURRENT_UPLOADS = 3` in `UploadService.ts`. -/
def MAX_CONCURRENT_UPLOADS : Nat := 3

/-- The `catch` branch of `performUpload` (`UploadService.ts` lines
178–200): on a failed attempt, if `retryCount < maxRetryAttempts` the item
returns to `pending`, `retryCount` is incremented, the error is recorded,
and a retry is scheduled after `RETRY_DELAY_BASE * 2 ^ (retryCount - 1)` ms
computed from the incremented `retryCount`; otherwise the item becomes
`failed`.  The second component is the scheduled retry delay (`none` when no
retry is scheduled). -/
def handleUploadFailure (maxRetryAttempts : Nat) (msg : String)
    (item : UploadQueueItem) : UploadQueueItem × Option Nat :=
  if item.retryCount < maxRetryAttempts then
    let newRetryCount := item.retryCount + 1
    ({ item with
        status := Status.pending
        retryCount := newRetryCount
        error := some msg },
      some (RETRY_DELAY_BASE * 2 ^ (newRetryCount - 1)))
  else
    ({ item with status := Status.failed, error := some msg }, none)

/-- `n` consecutive failed upload attempts applied to an item (each attempt
ends in the `catch` branch of `performUpload`). -/
def failNTimes (maxRetryAttempts : Nat) (msg : String)
    (item : UploadQueueItem) : Nat → UploadQueueItem
  | 0 => item
  | n + 1 =>
      (handleUploadFailure maxRetryAttempts msg
        (failNTimes maxRetryAttempts msg item n)).1

/-- A freshly enqueued item as built by `addToQueue`: status `pending`,
`retryCount = 0`. -/
def freshItem : UploadQueueItem :=
  { id := "upload_1"
    fileName := "rec_dev_2026_0.mp4"
    filePath := "/docs/recordings/rec_dev_2026_0.mp4"
    fileSize := 1024
    createdAt := 0
    status := Status.pending
    retryCount := 0
    metadata := { chunkIndex := 0, duration := 60000, timestamp := 0 } }

/-- The per-item reset applied by `loadQueueFromStorage` (`UploadService.ts`
lines 288–294): any item found `uploading` is forced back to `pending` with
`progress = 0`; every other item is left unchanged. -/
def resetOnLoad (item : UploadQueueItem) : UploadQueueItem :=
  if item.status = Status.uploading then
    { item with status := Status.pending, progress := some 0 }
  else item

/-- `loadQueueFromStorage`: the queue loaded from the persisted snapshot,
with the `uploading → pending` reset applied to each item. -/
def loadQueueFromStorage (stored : List UploadQueueItem) :
    List UploadQueueItem :=
  stored.map resetOnLoad

/-- The full upload-service state relevant to the queue operations:
the in-memory queue, the `isProcessing` guard, the persisted snapshot
(`AsyncStorage` under `QUEUE_STORAGE_KEY`), and the set of local files on
disk. -/
structure QState where
  queue : List UploadQueueItem
  isProcessing : Bool
  saved : List UploadQueueItem
  files : List String
deriving DecidableEq, Repr

/-- The external collaborators `processQueue` / `performUpload` consult:
the settings store, the network-state oracle (`isConnectedToWifi` is a stub
returning `true` in the current code, so `onWifi` models the oracle's
answer), the file-system existence check, and the upload transport's result
keyed by item id. -/
structure UploadEnv where
  settings : Settings
  onWifi : Bool
  fileExists : String → Bool
  uploadResult : String → Except String Unit

/-- In the source the found queue item is mutated in place; the queue list
holds the same object, so the update is visible at the item's position.
Ids are unique (`generateUploadId`). -/
def updateItem (q : List UploadQueueItem) (id : String)
    (f : UploadQueueItem → UploadQueueItem) : List UploadQueueItem :=
  q.map fun it => if it.id = id then f it else it

/-- `performUpload` (`UploadService.ts` lines 132–205): mark the item
`uploading` with progress 0 and persist; fail with `File no longer exists`
when the file is gone; on transport success mark `completed` with progress
100 and (policy permitting) delete the local file; on any failure run the
retry logic `handleUploadFailure`; persist in `finally`. -/
def performUpload (env : UploadEnv) (s : QState) (id : String) : QState :=
  let q1 := updateItem s.queue id fun it =>
    { it with status := Status.uploading, progress := some 0 }
  let s1 : QState := { s with queue := q1, saved := q1 }
  match q1.find? (fun it => it.id == id) with
  | none => s1
  | some item =>
      if env.fileExists item.filePath then
        match env.uploadResult item.id with
        | Except.ok _ =>
            let q2 := updateItem s1.queue id fun it =>
              { it with status := Status.completed, progress := some 100 }
            let files2 :=
              if env.settings.deleteAfterUpload then
                s1.files.erase item.filePath
              else s1.files
            { s1 with queue := q2, saved := q2, files := files2 }
        | Except.error msg =>
            let q2 := updateItem s1.queue id fun it =>
              (handleUploadFailure env.settings.maxRetryAttempts msg it).1
            { s1 with queue := q2, saved := q2 }
      else
        let q2 := updateItem s1.queue id fun it =>
          (handleUploadFailure env.settings.maxRetryAttempts
            "File no longer exists" it).1
        { s1 with queue := q2, saved := q2 }

/-- `createBatches` (`UploadService.ts` lines 320–326): slice the list into
consecutive batches of `batchSize`. -/
def createBatches {α : Type} (l : List α) (batchSize : Nat) :
    List (List α) :=
  match l with
  | [] => []
  | a :: rest =>
      (a :: rest.take (batchSize - 1)) ::
        createBatches (rest.drop (batchSize - 1)) batchSize
termination_by l.length
decreasing_by
  simp only [List.length_cons, List.length_drop]
  exact Nat.lt_succ_of_le (Nat.sub_le _ _)

/-- `processQueue` (`UploadService.ts` lines 77–115): no-op when the
`isProcessing` guard is set; otherwise set the guard, return early when
wifi-only is enabled and the network oracle says not-on-wifi, or when there
are no pending items; otherwise upload the pending items in batches of
`MAX_CONCURRENT_UPLOADS`; clear the guard in `finally`. -/
def processQueue (env : UploadEnv) (s : QState) : QState :=
  if s.isProcessing then s
  else
    let s1 : QState := { s with isProcessing := true }
    let s2 :=
      if env.settings.wifiOnlyUpload && !env.onWifi then s1
      else
        let pendingIds :=
          (s1.queue.filter fun it => it.status == Status.pending).map
            (fun it => it.id)
        if pendingIds.isEmpty then s1
        else
          (createBatches pendingIds MAX_CONCURRENT_UPLOADS).foldl
            (fun acc batch =>
              batch.foldl (fun a i => performUpload env a i) acc) s1
    { s2 with isProcessing := false }

/-- `retryUpload` (`UploadService.ts` lines 207–223): only an existing item
in status `failed` is reset to `pending` with `retryCount = 0` and its error
cleared (and the queue persisted); otherwise the call returns with no state
change.  The subsequent `processQueue` trigger is modelled separately. -/
def retryUpload (s : QState) (id : String) : QState :=
  match s.queue.find? (fun it => it.id == id) with
  | none => s
  | some item =>
      if item.status = Status.failed then
        let q := updateItem s.queue id fun it =>
          { it with status := Status.pending, retryCount := 0, error := none }
        { s with queue := q, saved := q }
      else s

/-- `removeFromQueue` (`UploadService.ts` lines 225–246): an id not in the
queue returns with no change; otherwise the backing file is deleted when it
exists (best-effort) and the first item with that id is removed, then the
queue is persisted. -/
def removeFromQueue (s : QState) (id : String) : QState :=
  match s.queue.find? (fun it => it.id == id) with
  | none => s
  | some item =>
      let files2 :=
        if item.filePath ∈ s.files then s.files.erase item.filePath
        else s.files
      let q := s.queue.eraseP (fun it => it.id == id)
      { s with queue := q, saved := q, files := files2 }

/-- The in-flight map `uploadPromises : Map<string, Promise<void>>` of
`UploadService.ts`, with promises identified by opaque tokens. -/
structure FlightState where
  uploadPromises : List (String × Nat)
deriving DecidableEq, Repr

/-- `uploadItem` (`UploadService.ts` lines 117–130): when an in-flight
promise exists for the item's id it is returned as-is and no new
`performUpload` starts; otherwise a new promise (the fresh token) is
registered and a new `performUpload` is started.  The result is the state
of the in-flight map, the promise token the caller awaits, and whether a
new `performUpload` was started. -/
def uploadItem (s : FlightState) (id : String) (freshToken : Nat) :
    FlightState × Nat × Bool :=
  match s.uploadPromises.lookup id with
  | some tok => (s, tok, false)
  | none =>
      ({ uploadPromises := (id, freshToken) :: s.uploadPromises },
        freshToken, true)

/-- Result of `FileSystem.getInfoAsync` on the moved recording file. -/
structure FSFileInfo where
  fsExists : Bool
  size : Nat
deriving DecidableEq, Repr

/-- `VideoChunk` from `CameraService.ts`. -/
structure VideoChunk where
  path : String
  duration : Int
  size : Nat
  timestamp : Int
  chunkIndex : Nat
deriving DecidableEq, Repr

/-- `stopCurrentChunk` (`CameraService.ts` lines 145–207): after stopping
the capture device, fail unless a recording uri and chunk file name exist;
move the device's output to `recordingsDir ++ fileName` and verify the moved
file exists with non-zero size (`PersistenceError` otherwise); run the
best-effort gallery save whose outcome is only logged; then construct the
`VideoChunk`.  `Except.ok` means the chunk is handed to
`UploadService.addToQueue`.  The second component is the log produced by
the gallery step. -/
def stopCurrentChunk (recordingsDir : String)
    (recordingResult : Option String) (currentChunkFileName : Option String)
    (movedInfo : FSFileInfo)
    (galleryPermissionGranted gallerySaveOk : Bool)
    (chunkStartTime now : Int) (chunkIndex : Nat) :
    Except String VideoChunk × List String :=
  match recordingResult, currentChunkFileName with
  | some _, some fileName =>
      if !movedInfo.fsExists || movedInfo.size == 0 then
        (Except.error "Recorded file was not persisted correctly", [])
      else
        let galleryLog :=
          if galleryPermissionGranted then
            if gallerySaveOk then ["Saved persistent chunk to gallery"]
            else ["Failed to save to gallery"]
          else
            ["Media Library permission not granted, skipping gallery save"]
        (Except.ok
          { path := recordingsDir ++ fileName
            duration := now - chunkStartTime
            size := movedInfo.size
            timestamp := now
            chunkIndex := chunkIndex },
          galleryLog)
  | _, _ =>
      (Except.error "Recording finished without a valid output file", [])

/-- Chunk finalization seen from the upload queue: the chunk built by
`stopCurrentChunk` is enqueued exactly when finalization succeeded;
otherwise the queue is untouched and the error propagates to the caller. -/
def finalizeChunk (queue : List VideoChunk) (recordingsDir : String)
    (recordingResult : Option String) (currentChunkFileName : Option String)
    (movedInfo : FSFileInfo)
    (galleryPermissionGranted gallerySaveOk : Bool)
    (chunkStartTime now : Int) (chunkIndex : Nat) :
    List VideoChunk × Option String :=
  match (stopCurrentChunk recordingsDir recordingResult currentChunkFileName
      movedInfo galleryPermissionGranted gallerySaveOk chunkStartTime now
      chunkIndex).1 with
  | Except.ok c => (queue ++ [c], none)
  | Except.error e => (queue, some e)

/-- `FileInfo` from the StorageService (`src/unnamed/part_000`). -/
structure FileInfo where
  path : String
  name : String
  size : Nat
  createdAt : Int
deriving DecidableEq, Repr

/-- The comparison used to sort chunk files oldest-first
(`files.sort((a, b) => a.createdAt - b.createdAt)`). -/
def createdAtLE (a b : FileInfo) : Prop :=
  a.createdAt ≤ b.createdAt

instance : DecidableRel createdAtLE := fun a b =>
  inferInstanceAs (Decidable (a.createdAt ≤ b.createdAt))

instance : IsTotal FileInfo createdAtLE :=
  ⟨fun a b => Int.le_total a.createdAt b.createdAt⟩

instance : IsTrans FileInfo createdAtLE :=
  ⟨fun _ _ _ h1 h2 => Int.le_trans h1 h2⟩

/-- Total size of a list of chunk files
(`files.reduce((sum, file) => sum + file.size, 0)`), taken in `ℚ` because
the eviction target `maxBytes * 0.8` is fractional. -/
def sumSize (files : List FileInfo) : ℚ :=
  (files.map fun f => (f.size : ℚ)).sum

/-- Stable ascending sort by `createdAt` (oldest first). -/
def sortByCreatedAtAsc (files : List FileInfo) : List FileInfo :=
  List.insertionSort createdAtLE files

/-- The deletion loop of `cleanupStorage` (`src/unnamed/part_000` lines
187–199): walk the oldest-first list; stop as soon as
`currentSize ≤ targetSize`, otherwise delete the file and subtract its
size.  Returns the surviving files. -/
def cleanupGo (targetSize : ℚ) : List FileInfo → ℚ → List FileInfo
  | [], _ => []
  | f :: rest, currentSize =>
      if currentSize ≤ targetSize then f :: rest
      else cleanupGo targetSize rest (currentSize - (f.size : ℚ))

/-- `cleanupStorage(targetSize)` (`src/unnamed/part_000` lines 177–206):
sort oldest-first and delete from the front until the remaining total is at
most `targetSize`. -/
def cleanupStorage (targetSize : ℚ) (files : List FileInfo) :
    List FileInfo :=
  let sorted := sortByCreatedAtAsc files
  cleanupGo targetSize sorted (sumSize sorted)

/-- `deleteOldFiles(maxAgeHours)` (`src/unnamed/part_000` lines 128–155):
delete every file with `createdAt < now - maxAgeHours·3600000`; returns the
surviving files. -/
def deleteOldFiles (now : Int) (maxAgeHours : Nat)
    (files : List FileInfo) : List FileInfo :=
  let cutoffTime : Int := now - (maxAgeHours : Int) * 60 * 60 * 1000
  files.filter fun f => !decide (f.createdAt < cutoffTime)

/-- `cleanupStorageIfNeeded` (`src/unnamed/part_000` lines 157–175): when
total size exceeds `maxLocalStorageGB` in bytes, clean to 80% of the limit;
then, when `autoDeleteOldFiles` is enabled, also delete files older than 24
hours. -/
def cleanupStorageIfNeeded (settings : Settings) (now : Int)
    (files : List FileInfo) : List FileInfo :=
  let maxStorageBytes : ℚ :=
    (settings.maxLocalStorageGB : ℚ) * 1024 * 1024 * 1024
  let afterQuota :=
    if maxStorageBytes < sumSize files then
      cleanupStorage (maxStorageBytes * 0.8) files
    else files
  if settings.autoDeleteOldFiles then deleteOldFiles now 24 afterQuota
  else afterQuota

/-- The `SettingsService` defaults (`SettingsService.ts` lines 33–38). -/
def defaultSettings : Settings :=
  { wifiOnlyUpload := false
    deleteAfterUpload := true
    maxRetryAttempts := 3
    maxLocalStorageGB := 2
    autoDeleteOldFiles := true }

/-- An environment with the default settings, the oracle reporting wifi,
all files present and a transport that always succeeds. -/
def happyEnv : UploadEnv :=
  { settings := defaultSettings
    onWifi := true
    fileExists := fun _ => true
    uploadResult := fun _ => Except.ok () }

/-- A persisted item stored mid-upload, used to exercise the load reset. -/
def uploadingItem : UploadQueueItem :=
  { freshItem with
    id := "upload_2"
    status := Status.uploading
    progress := some 37 }

/-- A state whose `isProcessing` guard is set. -/
def busyState : QState :=
  { queue := [freshItem]
    isProcessing := true
    saved := [freshItem]
    files := [freshItem.filePath] }

/-- An environment with wifi-only enabled and the oracle reporting
not-on-wifi. -/
def wifiOnlyEnv : UploadEnv :=
  { settings := { defaultSettings with wifiOnlyUpload := true }
    onWifi := false
    fileExists := fun _ => true
    uploadResult := fun _ => Except.ok () }

/-- A state with the `isProcessing` guard clear and one pending item. -/
def idleState : QState :=
  { queue := [freshItem]
    isProcessing := false
    saved := [freshItem]
    files := [freshItem.filePath] }

/-- A chunk file of 150 MB with the given age rank. -/
def mb150File (i : Nat) : FileInfo :=
  { path := "/docs/surveillance_chunks/chunk" ++ toString i ++ ".mp4"
    name := "chunk" ++ toString i ++ ".mp4"
    size := 157286400
    createdAt := (i : Int) }

/-- Ten 150 MB chunk files in ascending `createdAt` order (1.5 GB total). -/
def tenFiles : List FileInfo :=
  [mb150File 0, mb150File 1, mb150File 2, mb150File 3, mb150File 4,
   mb150File 5, mb150File 6, mb150File 7, mb150File 8, mb150File 9]

lemma failNTimes_retryCount_le (m : Nat) (msg : String)
    (item : UploadQueueItem) (h0 : item.retryCount = 0) :
    ∀ k, k ≤ m →
      (failNTimes m msg item k).retryCount = k ∧
      (0 < k → (failNTimes m msg item k).status = Status.pending) := by
  intro k
  induction k with
  | zero => intro _; exact ⟨h0, fun h => absurd h (Nat.lt_irrefl 0)⟩
  | succ n ih =>
      intro hle
      have hn : n ≤ m := Nat.le_of_succ_le hle
      obtain ⟨hrc, _⟩ := ih hn
      have hnm : n < m := Nat.lt_of_succ_le hle
      constructor
      · show (handleUploadFailure m msg (failNTimes m msg item n)).1.retryCount = n + 1
        simp [handleUploadFailure, hrc, hnm]
      · intro _
        show (handleUploadFailure m msg (failNTimes m msg item n)).1.status = Status.pending
        simp [handleUploadFailure, hrc, hnm]

/-- C1 counterexample: with `maxRetryAttempts = 1`, a fresh item that fails
exactly once (= `maxRetryAttempts` times) does NOT end in `failed` — it is
`pending` with `retryCount = 1` and a second (automatic) attempt scheduled
after 5000 ms, contradicting the claim that it ends `failed` with no
`(m+1)`-th attempt. -/
theorem C1_counterexample_retry_after_max_failures :
    (failNTimes 1 "network error" freshItem 1).status = Status.pending ∧
    (failNTimes 1 "network error" freshItem 1).retryCount = 1 ∧
    (handleUploadFailure 1 "network error"
        (failNTimes 1 "network error" freshItem 0)).2 = some 5000 := by
  decide

/-- C1 (amended): an item that fails exactly `maxRetryAttempts + 1` times
(the initial attempt plus `maxRetryAttempts` automatic retries) ends in
`failed` with `retryCount = maxRetryAttempts`, and no further automatic
attempt is scheduled; after only `k + 1 ≤ maxRetryAttempts` failures the
item is still `pending` and an automatic retry is scheduled. -/
theorem C1_retry_ceiling_amended (m : Nat) (item : UploadQueueItem)
    (msg : String) (h0 : item.retryCount = 0) :
    (failNTimes m msg item (m + 1)).status = Status.failed ∧
    (failNTimes m msg item (m + 1)).retryCount = m ∧
    (handleUploadFailure m msg (failNTimes m msg item m)).2 = none ∧
    (∀ k, k < m →
      (failNTimes m msg item (k + 1)).status = Status.pending ∧
      (handleUploadFailure m msg (failNTimes m msg item k)).2 =
        some (RETRY_DELAY_BASE * 2 ^ k)) := by
  obtain ⟨hrcm, _⟩ := failNTimes_retryCount_le m msg item h0 m (Nat.le_refl m)
  have hnotlt : ¬ (failNTimes m msg item m).retryCount < m := by
    rw [hrcm]; exact Nat.lt_irrefl m
  refine ⟨?_, ?_, ?_, ?_⟩
  · show (handleUploadFailure m msg (failNTimes m msg item m)).1.status =
      Status.failed
    simp [handleUploadFailure, hnotlt]
  · show (handleUploadFailure m msg (failNTimes m msg item m)).1.retryCount = m
    simp [handleUploadFailure, hnotlt, hrcm]
  · simp [handleUploadFailure, hnotlt]
  · intro k hk
    obtain ⟨hrck, _⟩ :=
      failNTimes_retryCount_le m msg item h0 k (Nat.le_of_lt hk)
    constructor
    · show (handleUploadFailure m msg (failNTimes m msg item k)).1.status =
        Status.pending
      simp [handleUploadFailure, hrck, hk]
    · simp [handleUploadFailure, hrck, hk]

/-- Witness for `C1_retry_ceiling_amended` at `maxRetryAttempts = 3` and a
fresh item. -/
theorem C1_retry_ceiling_amended_witness :
    freshItem.retryCount = 0 ∧
    ((failNTimes 3 "e" freshItem 4).status = Status.failed ∧
      (failNTimes 3 "e" freshItem 4).retryCount = 3 ∧
      (handleUploadFailure 3 "e" (failNTimes 3 "e" freshItem 3)).2 = none ∧
      (∀ k, k < 3 →
        (failNTimes 3 "e" freshItem (k + 1)).status = Status.pending ∧
        (handleUploadFailure 3 "e" (failNTimes 3 "e" freshItem k)).2 =
          some (RETRY_DELAY_BASE * 2 ^ k))) :=
  ⟨rfl, C1_retry_ceiling_amended 3 freshItem "e" rfl⟩

/-- C2: when an attempt for an item with `retryCount = n < maxRetryAttempts`
fails, the item returns to `pending`, `retryCount` becomes `n + 1`, and the
retry delay is `RETRY_DELAY_BASE * 2 ^ ((n+1) - 1)` computed from the
incremented `retryCount`, which equals `5000 * 2 ^ n` — i.e. base × 2^n for
an item previously retried `n` times. -/
theorem C2_backoff_schedule (maxRetryAttempts n : Nat) (msg : String)
    (item : UploadQueueItem) (hrc : item.retryCount = n)
    (hlt : n < maxRetryAttempts) :
    (handleUploadFailure maxRetryAttempts msg item).1.status =
        Status.pending ∧
    (handleUploadFailure maxRetryAttempts msg item).1.retryCount = n + 1 ∧
    (handleUploadFailure maxRetryAttempts msg item).2 =
        some (RETRY_DELAY_BASE * 2 ^ (n + 1 - 1)) ∧
    RETRY_DELAY_BASE * 2 ^ (n + 1 - 1) = 5000 * 2 ^ n := by
  refine ⟨?_, ?_, ?_, ?_⟩ <;>
    simp [handleUploadFailure, hrc, hlt, RETRY_DELAY_BASE]

/-- Witness for `C2_backoff_schedule`: an item already retried twice, with
`maxRetryAttempts = 3`; the scheduled delay is 5000 × 2² = 20000 ms. -/
theorem C2_backoff_schedule_witness :
    ({ freshItem with retryCount := 2 } : UploadQueueItem).retryCount = 2 ∧
    2 < 3 ∧
    ((handleUploadFailure 3 "e" { freshItem with retryCount := 2 }).1.status =
        Status.pending ∧
      (handleUploadFailure 3 "e"
          { freshItem with retryCount := 2 }).1.retryCount = 2 + 1 ∧
      (handleUploadFailure 3 "e" { freshItem with retryCount := 2 }).2 =
        some (RETRY_DELAY_BASE * 2 ^ (2 + 1 - 1)) ∧
      RETRY_DELAY_BASE * 2 ^ (2 + 1 - 1) = 5000 * 2 ^ 2) :=
  ⟨rfl, by decide,
    C2_backoff_schedule 3 2 "e" { freshItem with retryCount := 2 } rfl
      (by decide)⟩

/-- C4: after loading a persisted queue, every item stored as `uploading`
is `pending` with progress 0, every other item is loaded unchanged, and no
loaded item is `uploading`. -/
theorem C4_no_durable_uploading (stored : List UploadQueueItem) :
    List.Forall₂ (fun orig loaded =>
      (orig.status = Status.uploading →
        loaded = { orig with status := Status.pending, progress := some 0 }) ∧
      (orig.status ≠ Status.uploading → loaded = orig) ∧
      loaded.status ≠ Status.uploading)
      stored (loadQueueFromStorage stored) := by
  induction stored with
  | nil => exact List.Forall₂.nil
  | cons a l ih =>
      simp only [loadQueueFromStorage, List.map_cons] at *
      refine List.Forall₂.cons ?_ ih
      by_cases h : a.status = Status.uploading
      · exact ⟨fun _ => by simp [resetOnLoad, h], fun hn => absurd h hn,
          by simp [resetOnLoad, h]⟩
      · exact ⟨fun hu => absurd hu h, fun _ => by simp [resetOnLoad, h],
          by simp only [resetOnLoad, if_neg h]; exact h⟩

/-- Witness for `C4_no_durable_uploading` on a queue holding one
`uploading` and one `pending` item. -/
theorem C4_no_durable_uploading_witness :
    List.Forall₂ (fun orig loaded =>
      (orig.status = Status.uploading →
        loaded = { orig with status := Status.pending, progress := some 0 }) ∧
      (orig.status ≠ Status.uploading → loaded = orig) ∧
      loaded.status ≠ Status.uploading)
      [uploadingItem, freshItem]
      (loadQueueFromStorage [uploadingItem, freshItem]) :=
  C4_no_durable_uploading [uploadingItem, freshItem]

/-- C5: a re-entrant `processQueue` call while the `isProcessing` guard is
set returns immediately with the whole service state (queue membership and
every item's fields, the guard, the persisted snapshot, the local files)
unchanged. -/
theorem C5_processQueue_reentrant_noop (env : UploadEnv) (s : QState)
    (h : s.isProcessing = true) : processQueue env s = s := by
  simp [processQueue, h]

/-- Witness for `C5_processQueue_reentrant_noop`. -/
theorem C5_processQueue_reentrant_noop_witness :
    busyState.isProcessing = true ∧
    processQueue happyEnv busyState = busyState :=
  ⟨rfl, C5_processQueue_reentrant_noop happyEnv busyState rfl⟩

/-- C7: with wifi-only enabled and the network oracle reporting
not-on-wifi, `processQueue` returns with the state unchanged — no upload is
started and no item's status, retryCount or error changes, so no retries
are consumed. -/
theorem C7_wifi_only_skip (env : UploadEnv) (s : QState)
    (hp : s.isProcessing = false)
    (hw : env.settings.wifiOnlyUpload = true)
    (hn : env.onWifi = false) : processQueue env s = s := by
  cases s with
  | mk queue isProcessing saved files =>
      simp only at hp
      subst hp
      simp [processQueue, hw, hn]

/-- Witness for `C7_wifi_only_skip`. -/
theorem C7_wifi_only_skip_witness :
    idleState.isProcessing = false ∧
    wifiOnlyEnv.settings.wifiOnlyUpload = true ∧
    wifiOnlyEnv.onWifi = false ∧
    processQueue wifiOnlyEnv idleState = idleState :=
  ⟨rfl, rfl, rfl, C7_wifi_only_skip wifiOnlyEnv idleState rfl rfl rfl⟩

/-- C9: `retryUpload` on an id that is absent or whose item is not `failed`,
and `removeFromQueue` on an absent id, leave the queue, the persisted
snapshot and the local files entirely unchanged. -/
theorem C9_invalid_ops_noop (s : QState) (id : String)
    (h1 : ∀ it ∈ s.queue, it.id = id → it.status ≠ Status.failed) :
    retryUpload s id = s ∧
    ((∀ it ∈ s.queue, it.id ≠ id) → removeFromQueue s id = s) := by
  constructor
  · unfold retryUpload
    cases hf : s.queue.find? (fun it => it.id == id) with
    | none => rfl
    | some item =>
        have hmem := List.mem_of_find?_eq_some hf
        have hid : item.id = id := by simpa using List.find?_some hf
        simp [h1 item hmem hid]
  · intro h2
    unfold removeFromQueue
    cases hf : s.queue.find? (fun it => it.id == id) with
    | none => rfl
    | some item =>
        have hmem := List.mem_of_find?_eq_some hf
        have hid : item.id = id := by simpa using List.find?_some hf
        exact absurd hid (h2 item hmem)

/-- Witness for `C9_invalid_ops_noop`: an id absent from the queue. -/
theorem C9_invalid_ops_noop_witness :
    (∀ it ∈ idleState.queue, it.id = "missing" →
      it.status ≠ Status.failed) ∧
    retryUpload idleState "missing" = idleState ∧
    ((∀ it ∈ idleState.queue, it.id ≠ "missing") →
      removeFromQueue idleState "missing" = idleState) :=
  ⟨by decide,
    (C9_invalid_ops_noop idleState "missing" (by decide)).1,
    (C9_invalid_ops_noop idleState "missing" (by decide)).2⟩

/-- C8: a second upload request for an id whose upload is already in flight
(present in the `uploadPromises` map) leaves the map unchanged, awaits the
existing promise, and starts no new `performUpload`. -/
theorem C8_single_flight_per_item (s : FlightState) (id : String)
    (tok freshToken : Nat)
    (h : s.uploadPromises.lookup id = some tok) :
    uploadItem s id freshToken = (s, tok, false) := by
  simp [uploadItem, h]

/-- Witness for `C8_single_flight_per_item`: id `upload_1` already in
flight with promise token 7. -/
theorem C8_single_flight_per_item_witness :
    (FlightState.mk [("upload_1", 7)]).uploadPromises.lookup "upload_1" =
      some 7 ∧
    uploadItem (FlightState.mk [("upload_1", 7)]) "upload_1" 99 =
      (FlightState.mk [("upload_1", 7)], 7, false) :=
  ⟨by decide,
    C8_single_flight_per_item (FlightState.mk [("upload_1", 7)]) "upload_1"
      7 99 (by decide)⟩

/-- C6: finalizing a chunk succeeds — and the chunk, whose path is inside
the permanent recordings directory, is enqueued — exactly when the moved
file exists with non-zero size; a verification failure enqueues nothing and
propagates an error; the best-effort gallery step's outcome never changes
the result. -/
theorem C6_finalize_move_verify_enqueue (recordingsDir uri fileName : String)
    (movedInfo : FSFileInfo) (gp gs : Bool) (t0 t1 : Int) (ci : Nat)
    (queue : List VideoChunk) :
    ((stopCurrentChunk recordingsDir (some uri) (some fileName) movedInfo
          gp gs t0 t1 ci).1 =
        Except.ok
          { path := recordingsDir ++ fileName
            duration := t1 - t0
            size := movedInfo.size
            timestamp := t1
            chunkIndex := ci } ↔
      (movedInfo.fsExists = true ∧ movedInfo.size ≠ 0)) ∧
    (¬(movedInfo.fsExists = true ∧ movedInfo.size ≠ 0) →
      finalizeChunk queue recordingsDir (some uri) (some fileName) movedInfo
          gp gs t0 t1 ci =
        (queue, some "Recorded file was not persisted correctly")) ∧
    ((movedInfo.fsExists = true ∧ movedInfo.size ≠ 0) →
      finalizeChunk queue recordingsDir (some uri) (some fileName) movedInfo
          gp gs t0 t1 ci =
        (queue ++
            [{ path := recordingsDir ++ fileName
               duration := t1 - t0
               size := movedInfo.size
               timestamp := t1
               chunkIndex := ci }],
          none)) ∧
    (∀ gp' gs',
      (stopCurrentChunk recordingsDir (some uri) (some fileName) movedInfo
          gp gs t0 t1 ci).1 =
        (stopCurrentChunk recordingsDir (some uri) (some fileName) movedInfo
          gp' gs' t0 t1 ci).1 ∧
      finalizeChunk queue recordingsDir (some uri) (some fileName) movedInfo
          gp gs t0 t1 ci =
        finalizeChunk queue recordingsDir (some uri) (some fileName)
          movedInfo gp' gs' t0 t1 ci) := by
  obtain ⟨ex, sz⟩ := movedInfo
  by_cases hsz : sz = 0 <;> cases ex <;>
    simp [stopCurrentChunk, finalizeChunk, hsz]

/-- Witness for `C6_finalize_move_verify_enqueue` on a moved file of
2048 bytes. -/
theorem C6_finalize_move_verify_enqueue_witness :
    ((stopCurrentChunk "/docs/recordings/" (some "/cache/tmp.mp4")
          (some "rec_dev_2026_0.mp4") (FSFileInfo.mk true 2048) true false
          0 60000 0).1 =
        Except.ok
          { path := "/docs/recordings/" ++ "rec_dev_2026_0.mp4"
            duration := (60000 : Int) - 0
            size := (FSFileInfo.mk true 2048).size
            timestamp := 60000
            chunkIndex := 0 } ↔
      ((FSFileInfo.mk true 2048).fsExists = true ∧
        (FSFileInfo.mk true 2048).size ≠ 0)) ∧
    (¬((FSFileInfo.mk true 2048).fsExists = true ∧
        (FSFileInfo.mk true 2048).size ≠ 0) →
      finalizeChunk [] "/docs/recordings/" (some "/cache/tmp.mp4")
          (some "rec_dev_2026_0.mp4") (FSFileInfo.mk true 2048) true false
          0 60000 0 =
        ([], some "Recorded file was not persisted correctly")) ∧
    (((FSFileInfo.mk true 2048).fsExists = true ∧
        (FSFileInfo.mk true 2048).size ≠ 0) →
      finalizeChunk [] "/docs/recordings/" (some "/cache/tmp.mp4")
          (some "rec_dev_2026_0.mp4") (FSFileInfo.mk true 2048) true false
          0 60000 0 =
        ([] ++
            [{ path := "/docs/recordings/" ++ "rec_dev_2026_0.mp4"
               duration := (60000 : Int) - 0
               size := (FSFileInfo.mk true 2048).size
               timestamp := 60000
               chunkIndex := 0 }],
          none)) ∧
    (∀ gp' gs',
      (stopCurrentChunk "/docs/recordings/" (some "/cache/tmp.mp4")
          (some "rec_dev_2026_0.mp4") (FSFileInfo.mk true 2048) true false
          0 60000 0).1 =
        (stopCurrentChunk "/docs/recordings/" (some "/cache/tmp.mp4")
          (some "rec_dev_2026_0.mp4") (FSFileInfo.mk true 2048) gp' gs'
          0 60000 0).1 ∧
      finalizeChunk [] "/docs/recordings/" (some "/cache/tmp.mp4")
          (some "rec_dev_2026_0.mp4") (FSFileInfo.mk true 2048) true false
          0 60000 0 =
        finalizeChunk [] "/docs/recordings/" (some "/cache/tmp.mp4")
          (some "rec_dev_2026_0.mp4") (FSFileInfo.mk true 2048) gp' gs'
          0 60000 0) :=
  C6_finalize_move_verify_enqueue "/docs/recordings/" "/cache/tmp.mp4"
    "rec_dev_2026_0.mp4" (FSFileInfo.mk true 2048) true false 0 60000 0 []

lemma cleanupGo_spec (target : ℚ) (ht : 0 ≤ target) (l : List FileInfo) :
    ∃ k, cleanupGo target l (sumSize l) = l.drop k ∧
      sumSize (l.drop k) ≤ target ∧
      ∀ j < k, target < sumSize (l.drop j) := by
  induction l with
  | nil =>
      refine ⟨0, rfl, by simpa [sumSize] using ht, ?_⟩
      intro j hj
      exact absurd hj (Nat.not_lt_zero j)
  | cons f rest ih =>
      by_cases h : sumSize (f :: rest) ≤ target
      · refine ⟨0, ?_, by simpa using h, ?_⟩
        · simp [cleanupGo, h]
        · intro j hj
          exact absurd hj (Nat.not_lt_zero j)
      · have hsum : sumSize (f :: rest) - (f.size : ℚ) = sumSize rest := by
          simp only [sumSize, List.map_cons, List.sum_cons]
          ring
        obtain ⟨k, hk1, hk2, hk3⟩ := ih
        refine ⟨k + 1, ?_, ?_, ?_⟩
        · have hstep : cleanupGo target (f :: rest) (sumSize (f :: rest)) =
              cleanupGo target rest (sumSize (f :: rest) - (f.size : ℚ)) := by
            simp [cleanupGo, h]
          rw [hstep, hsum, hk1, List.drop_succ_cons]
        · rw [List.drop_succ_cons]; exact hk2
        · intro j hj
          cases j with
          | zero => simpa using lt_of_not_le h
          | succ j' =>
              rw [List.drop_succ_cons]
              exact hk3 j' (Nat.lt_of_succ_lt_succ hj)

/-- C3: with files totaling more than the quota `Q`, `cleanupStorage` at
target `Q × 0.8` deletes strictly oldest-first — the survivors are a suffix
of the ascending-`createdAt` sort of the files — until the remaining total
is ≤ 0.8 Q, and it never deletes a file when the remaining total is already
≤ 0.8 Q (every deleted suffix still exceeded the target). -/
theorem C3_quota_eviction_oldest_first (Q : ℚ) (files : List FileInfo)
    (hQ : 0 ≤ Q) (_hover : Q < sumSize files) :
    List.Sorted createdAtLE (sortByCreatedAtAsc files) ∧
    (sortByCreatedAtAsc files).Perm files ∧
    ∃ k, cleanupStorage (Q * 0.8) files = (sortByCreatedAtAsc files).drop k ∧
      sumSize ((sortByCreatedAtAsc files).drop k) ≤ Q * 0.8 ∧
      ∀ j < k, Q * 0.8 < sumSize ((sortByCreatedAtAsc files).drop j) := by
  refine ⟨List.sorted_insertionSort createdAtLE files,
    List.perm_insertionSort createdAtLE files, ?_⟩
  have ht : 0 ≤ Q * 0.8 := by
    have : (0 : ℚ) ≤ 0.8 := by norm_num
    exact mul_nonneg hQ this
  simpa [cleanupStorage] using
    cleanupGo_spec (Q * 0.8) ht (sortByCreatedAtAsc files)

/-- Witness for `C3_quota_eviction_oldest_first`: the spec's scenario —
quota 1 GB, ten 150 MB files in known oldest-first order — where exactly
the 5 oldest files are evicted and the 5 newest (750 MB) survive. -/
theorem C3_quota_eviction_oldest_first_witness :
    (0 : ℚ) ≤ 1073741824 ∧
    (1073741824 : ℚ) < sumSize tenFiles ∧
    (List.Sorted createdAtLE (sortByCreatedAtAsc tenFiles) ∧
      (sortByCreatedAtAsc tenFiles).Perm tenFiles ∧
      ∃ k, cleanupStorage ((1073741824 : ℚ) * 0.8) tenFiles =
          (sortByCreatedAtAsc tenFiles).drop k ∧
        sumSize ((sortByCreatedAtAsc tenFiles).drop k) ≤
          (1073741824 : ℚ) * 0.8 ∧
        ∀ j < k, (1073741824 : ℚ) * 0.8 <
          sumSize ((sortByCreatedAtAsc tenFiles).drop j)) ∧
    cleanupStorage ((1073741824 : ℚ) * 0.8) tenFiles = tenFiles.drop 5 := by
  have h2 : (1073741824 : ℚ) < sumSize tenFiles := by
    norm_num [sumSize, tenFiles, mb150File]
  refine ⟨by norm_num, h2,
    C3_quota_eviction_oldest_first 1073741824 tenFiles (by norm_num) h2, ?_⟩
  have hsorted : List.Sorted createdAtLE tenFiles := by decide
  have hs : sortByCreatedAtAsc tenFiles = tenFiles := hsorted.insertionSort_eq
  simp only [cleanupStorage, hs]
  norm_num [cleanupGo, sumSize, tenFiles, mb150File]

/-- C10: whenever `autoDeleteOldFiles` is enabled, every
`cleanupStorageIfNeeded` invocation also deletes every chunk file older
than 24 hours: no survivor is older than the cutoff, and when total storage
is within the quota the pass is exactly the age-based deletion — so files
are deleted under no quota pressure. -/
theorem C10_auto_delete_on_cleanup (settings : Settings) (now : Int)
    (files : List FileInfo)
    (hAuto : settings.autoDeleteOldFiles = true) :
    (∀ f ∈ cleanupStorageIfNeeded settings now files,
      now - 24 * 60 * 60 * 1000 ≤ f.createdAt) ∧
    (sumSize files ≤ (settings.maxLocalStorageGB : ℚ) * 1024 * 1024 * 1024 →
      cleanupStorageIfNeeded settings now files =
        deleteOldFiles now 24 files) := by
  constructor
  · intro f hf
    simp only [cleanupStorageIfNeeded, hAuto, if_true, deleteOldFiles,
      List.mem_filter] at hf
    have h2 := hf.2
    simp only [Bool.not_eq_eq_eq_not, Bool.not_true, decide_eq_false_iff_not,
      not_lt] at h2
    have : ((24 : Nat) : Int) = 24 := by norm_num
    omega
  · intro hle
    simp only [cleanupStorageIfNeeded, hAuto, if_true,
      if_neg (not_lt.mpr hle)]

/-- An old chunk file (recorded at epoch 0). -/
def oldFile : FileInfo :=
  { path := "/docs/surveillance_chunks/old.mp4"
    name := "old.mp4"
    size := 1000
    createdAt := 0 }

/-- A recent chunk file. -/
def newFile : FileInfo :=
  { path := "/docs/surveillance_chunks/new.mp4"
    name := "new.mp4"
    size := 1000
    createdAt := 100000000 }

/-- Witness for `C10_auto_delete_on_cleanup`: with the default settings
(auto-delete enabled, 2 GB quota) and 2000 bytes of files — far below the
quota — the 24-hour pass still deletes the old file. -/
theorem C10_auto_delete_on_cleanup_witness :
    defaultSettings.autoDeleteOldFiles = true ∧
    (∀ f ∈ cleanupStorageIfNeeded defaultSettings 100000000
        [oldFile, newFile],
      (100000000 : Int) - 24 * 60 * 60 * 1000 ≤ f.createdAt) ∧
    (sumSize [oldFile, newFile] ≤
        (defaultSettings.maxLocalStorageGB : ℚ) * 1024 * 1024 * 1024 →
      cleanupStorageIfNeeded defaultSettings 100000000 [oldFile, newFile] =
        deleteOldFiles 100000000 24 [oldFile, newFile]) ∧
    cleanupStorageIfNeeded defaultSettings 100000000 [oldFile, newFile] =
      [newFile] :=
  ⟨rfl,
    (C10_auto_delete_on_cleanup defaultSettings 100000000 [oldFile, newFile]
      rfl).1,
    (C10_auto_delete_on_cleanup defaultSettings 100000000 [oldFile, newFile]
      rfl).2,
    by norm_num [cleanupStorageIfNeeded, defaultSettings, sumSize, oldFile,
      newFile, deleteOldFiles]⟩

end BgCamera
